import Mathlib

/-!
# Fadecandy DFU bootloader (`bootloader.c`): boot decision and application launch

A shallow embedding of `bootloader.c`.  Every C function becomes a Lean function on an
explicit machine `State`; every externally visible effect (a write to a memory-mapped
register, a write to `boot_token`, a call of an external service, the final branch) is
also appended, in program order, to `State.trace`.

External services (`dfu_getstate`, `serial_available`, `serial_getchar`) are oracles
indexed by the number of calls made so far.  Constants that live in headers which are not
part of `bootloader.c` (`dfuMANIFEST`, `BAUD2DIV(9600)`, the `PORT_PCR_*` bits, the linker
address of `appVectors`) are fields of `Env`, and so is what `watchdog_refresh()`, whose
body is in `kinetis.h`, does to the interrupt mask.
-/

namespace Bootloader

/-! ## Data model -/

/-- Observable effects, in the vocabulary of the C source. -/
inductive Event where
  | disable_irq
  | write_SCB_VTOR (v : Nat)
  | watchdog_refresh
  | write_boot_token (v : Nat)
  | branch (lr sp pc : Nat)
  | write_PORTC_PCR5 (v : Nat)
  | write_GPIOC_PDDR (v : Nat)
  | write_GPIOC_PDOR (v : Nat)
  | write_GPIOC_PTOR (v : Nat)
  | dfu_init
  | usb_init
  | dfu_getstate (ret : Nat)
  | write_USB0_CONTROL (v : Nat)
  | serial_begin (divisor : Nat)
  | serial_write (bytes : List Nat)
  | serial_putchar (c : Nat)
  | serial_flush
  | serial_available (ret : Bool)
  | serial_getchar (ret : Nat)
  | serial_end
  deriving DecidableEq, Repr

/-- Everything `bootloader.c` takes from outside its own text. -/
structure Env where
  /-- The address `&appVectors[0]`, fixed by the linker (section `.appvectors`). -/
  appVectorsAddr : Nat
  /-- The enumerator `dfuMANIFEST` of `usb_dev.h`. -/
  dfuMANIFEST : Nat
  /-- The value of `BAUD2DIV(9600)` (`serial.h`). -/
  baud2div_9600 : Nat
  /-- The value of `PORT_PCR_MUX(1) | PORT_PCR_DSE | PORT_PCR_SRE` (`kinetis.h`). -/
  pcr_led : Nat
  /-- The interrupt-enable flag with which `watchdog_refresh()` returns, as a function of
  the flag on entry.  The body of `watchdog_refresh` is in `kinetis.h`, which is not part
  of `bootloader.c`: the identity is a refresh that leaves the mask alone, the constant
  `true` is a refresh that masks interrupts around its register writes and enables them
  again before it returns. -/
  refresh_irq : Bool → Bool
  /-- The value returned by the k-th call of `dfu_getstate()`. -/
  dfu_state : Nat → Nat
  /-- The (truth value of the) result of the k-th call of `serial_available()`. -/
  rx_available : Nat → Bool
  /-- The character returned by the k-th call of `serial_getchar()`. -/
  rx_char : Nat → Nat

/-- Machine state touched by `bootloader.c`. -/
structure State where
  /-- The RAM word `boot_token` (`extern uint32_t boot_token`). -/
  boot_token : Nat
  /-- The flash array `appVectors[128]`. -/
  appVectors : Fin 128 → Nat
  /-- The vector-table-base register. -/
  SCB_VTOR : Nat
  /-- False once `__disable_irq()` has run. -/
  irq_enabled : Bool
  PORTC_PCR5 : Nat
  GPIOC_PDDR : Nat
  GPIOC_PDOR : Nat
  USB0_CONTROL : Nat
  /-- Number of calls of `dfu_getstate()` so far. -/
  dfu_calls : Nat
  /-- Number of calls of `serial_available()` so far. -/
  avail_calls : Nat
  /-- Number of calls of `serial_getchar()` so far. -/
  getchar_calls : Nat
  /-- Effects so far, oldest first. -/
  trace : List Event

/-- How an execution of `main` looks to an observer. -/
inductive Outcome where
  /-- Reached `bx`: control is in the application with these registers. -/
  | launched (lr sp pc : Nat) (s : State)
  /-- Still inside `while (dfu_getstate() != dfuMANIFEST)` when the observation ends. -/
  | waiting (s : State)
  /-- Inside the final `while (1);`. -/
  | spinning (s : State)

/-- The machine state of an outcome. -/
def Outcome.state : Outcome → State
  | .launched _ _ _ s => s
  | .waiting s => s
  | .spinning s => s

/-- True for the two outcomes of the DFU branch of `main`. -/
def Outcome.updateMode : Outcome → Bool
  | .launched _ _ _ _ => false
  | .waiting _ => true
  | .spinning _ => true

/-! ## Primitive effects -/

/-- Append one effect to the trace. -/
def emit (e : Event) (s : State) : State :=
  { s with trace := s.trace ++ [e] }

/-- The intrinsic `__disable_irq()`. -/
def disable_irq (s : State) : State :=
  emit .disable_irq { s with irq_enabled := false }

/-- Modelled from the spec: the watchdog service `refresh()`, called `watchdog_refresh()`
in the source, whose body is in `kinetis.h` and not in `bootloader.c`.  The spec gives it
no contract beyond acknowledging the watchdog timer, so the call is recorded as one effect
and the interrupt mask it returns with is taken from `Env.refresh_irq`. -/
def watchdog_refresh (env : Env) (s : State) : State :=
  emit .watchdog_refresh { s with irq_enabled := env.refresh_irq s.irq_enabled }

/-- The assignment `boot_token = v`. -/
def write_boot_token (v : Nat) (s : State) : State :=
  emit (.write_boot_token v) { s with boot_token := v }

/-- The assignment `SCB_VTOR = v`. -/
def write_SCB_VTOR (v : Nat) (s : State) : State :=
  emit (.write_SCB_VTOR v) { s with SCB_VTOR := v }

/-- The assignment `USB0_CONTROL = v`. -/
def write_USB0_CONTROL (v : Nat) (s : State) : State :=
  emit (.write_USB0_CONTROL v) { s with USB0_CONTROL := v }

/-- The external `dfu_init()`. -/
def dfu_init (s : State) : State :=
  emit .dfu_init s

/-- The external `usb_init()`. -/
def usb_init (s : State) : State :=
  emit .usb_init s

/-- The external `dfu_getstate()`: the oracle's answer for this call. -/
def dfu_getstate (env : Env) (s : State) : Nat × State :=
  let r := env.dfu_state s.dfu_calls
  (r, emit (.dfu_getstate r) { s with dfu_calls := s.dfu_calls + 1 })

/-! ## LED -/

/-- The constant `led_bit = 1 << 5`. -/
def led_bit : Nat := 1 <<< 5

/-- The function `led_init`. -/
def led_init (env : Env) (s : State) : State :=
  let s := emit (.write_PORTC_PCR5 env.pcr_led) { s with PORTC_PCR5 := env.pcr_led }
  let s := emit (.write_GPIOC_PDDR led_bit) { s with GPIOC_PDDR := led_bit }
  emit (.write_GPIOC_PDOR led_bit) { s with GPIOC_PDOR := led_bit }

/-- The function `led_toggle`: a write to the toggle register flips the output bits. -/
def led_toggle (s : State) : State :=
  emit (.write_GPIOC_PTOR led_bit) { s with GPIOC_PDOR := s.GPIOC_PDOR ^^^ led_bit }

/-! ## Boot decision -/

/-- The function `test_boot_token`. -/
def test_boot_token (s : State) : Bool × State :=
  (s.boot_token == 0x74624346, s)

/-- The function `test_app_missing`. -/
def test_app_missing (s : State) : Bool × State :=
  let entry := s.appVectors 1
  (decide (entry < 0x00004000) || decide (entry ≥ 256 * 1024), s)

/-- The short-circuit operator `||` of C on two effectful tests. -/
def c_or (f g : State → Bool × State) (s : State) : Bool × State :=
  match f s with
  | (true, s1) => (true, s1)
  | (false, s1) => g s1

/-! ## Banner echo -/

/-- The array `banner[] = "FC-Boot"`, terminating NUL included. -/
def banner : List Nat := [70, 67, 45, 66, 111, 111, 116, 0]

/-- The value of `sizeof banner`. -/
def sizeof_banner : Nat := banner.length

/-- The constant `bannerLength = sizeof banner - 1`. -/
def bannerLength : Nat := sizeof_banner - 1

/-- The external `serial_available()`. -/
def serial_available (env : Env) (s : State) : Bool × State :=
  let r := env.rx_available s.avail_calls
  (r, emit (.serial_available r) { s with avail_calls := s.avail_calls + 1 })

/-- The external `serial_getchar()`. -/
def serial_getchar (env : Env) (s : State) : Nat × State :=
  let r := env.rx_char s.getchar_calls
  (r, emit (.serial_getchar r) { s with getchar_calls := s.getchar_calls + 1 })

/-- The loop `while (matched < bannerLength) { if (...) matched++; else break; }`.
Returns the final value of `matched`. -/
def echo_loop (env : Env) (matched : Nat) (s : State) : Nat × State :=
  if matched < bannerLength then
    match serial_available env s with
    | (false, s1) => (matched, s1)
    | (true, s1) =>
      match serial_getchar env s1 with
      | (c, s2) =>
        if c = banner.getD matched 0 then echo_loop env (matched + 1) s2
        else (matched, s2)
  else (matched, s)
termination_by bannerLength - matched
decreasing_by omega

/-- The function `test_banner_echo`. -/
def test_banner_echo (env : Env) (s : State) : Bool × State :=
  let s := emit (.serial_begin env.baud2div_9600) s
  let s := emit (.serial_write (banner.take (sizeof_banner - 1))) s
  let s := emit (.serial_putchar 10) s
  let s := emit .serial_flush s
  match echo_loop env 0 s with
  | (matched, s) =>
    let s := emit .serial_end s
    (matched == bannerLength, s)

/-! ## Application launch -/

/-- The function `app_launch`.  The `(uint32_t)` cast of the table address is the
reduction modulo `2^32`; the inline assembly loads `lr`, `sp` and branches. -/
def app_launch (env : Env) (s : State) : Outcome :=
  let s := disable_irq s
  let s := write_SCB_VTOR (env.appVectorsAddr % 2 ^ 32) s
  let s := watchdog_refresh env s
  let s := write_boot_token 0 s
  let lr := 0xFFFFFFFF
  let sp := s.appVectors 0
  let pc := s.appVectors 1
  .launched lr sp pc (emit (.branch lr sp pc) s)

/-! ## Update mode -/

/-- The counting loop `for (x = n; x; --x) body`. -/
def for_down (body : State → State) : Nat → State → State
  | 0, s => s
  | x + 1, s => for_down body x (body s)

/-- The loop `for (j = n; j; --j) watchdog_refresh();`. -/
def refresh_loop (env : Env) (n : Nat) (s : State) : State :=
  for_down (watchdog_refresh env) n s

/-- A loop `while (cond) body`, observed for at most `fuel` evaluations of its condition.
The flag tells whether the loop was left (the condition came out false). -/
def while_fuel (cond : State → Bool × State) (body : State → State) :
    Nat → State → Bool × State
  | 0, s => (false, s)
  | fuel + 1, s =>
    match cond s with
    | (true, s1) => while_fuel cond body fuel (body s1)
    | (false, s1) => (true, s1)

/-- The condition `dfu_getstate() != dfuMANIFEST`. -/
def wait_cond (env : Env) (s : State) : Bool × State :=
  match dfu_getstate env s with
  | (st, s1) => (st != env.dfuMANIFEST, s1)

/-- The body `{ led_toggle(); for (j = 1000000; j; --j) watchdog_refresh(); }`. -/
def wait_body (env : Env) (s : State) : State :=
  refresh_loop env 1000000 (led_toggle s)

/-- The loop `while (dfu_getstate() != dfuMANIFEST) { ... }`. -/
def wait_loop (env : Env) (fuel : Nat) (s : State) : Bool × State :=
  while_fuel (wait_cond env) (wait_body env) fuel s

/-- The body `{ led_toggle(); for (j = 100000; j; --j) watchdog_refresh(); }`. -/
def flash_body (env : Env) (s : State) : State :=
  refresh_loop env 100000 (led_toggle s)

/-- The loop `for (i = n; i; --i) { led_toggle(); for (j = 100000; ...) ... }`. -/
def flash_loop (env : Env) (n : Nat) (s : State) : State :=
  for_down (flash_body env) n s

/-- The loop `while (1);` observed for `n` iterations of its empty body. -/
def spin : Nat → State → State
  | 0, s => s
  | n + 1, s => spin n s

/-- The condition of the `if` in `main`: `test_app_missing() || test_boot_token()`. -/
def boot_decision (s : State) : Bool × State :=
  c_or test_app_missing test_boot_token s

/-- The condition of the `if` in `main` with the commented-out banner test switched on:
`test_banner_echo() || test_app_missing() || test_boot_token()`. -/
def boot_decision_banner (env : Env) (s : State) : Bool × State :=
  c_or (test_banner_echo env) (c_or test_app_missing test_boot_token) s

/-- The function `main`, observed for at most `fuel` evaluations of the waiting loop's
condition and `spins` iterations of the final `while (1);`.  The `return 0` after
`app_launch()` is never reached, because `app_launch` ends in a branch. -/
def main (env : Env) (fuel spins : Nat) (s : State) : Outcome :=
  match boot_decision s with
  | (true, s) =>
    let s := led_init env s
    let s := dfu_init s
    let s := usb_init s
    match wait_loop env fuel s with
    | (false, s) => .waiting s
    | (true, s) =>
      let s := write_boot_token 0 s
      let s := flash_loop env 30 s
      let s := watchdog_refresh env s
      let s := disable_irq s
      let s := write_USB0_CONTROL 0 s
      .spinning (spin spins s)
  | (false, s) => app_launch env s

/-! ## Vocabulary of the statements -/

/-- The effects of one poll of the receiver. -/
def Event.is_poll : Event → Bool
  | .serial_available _ => true
  | .serial_getchar _ => true
  | _ => false

/-- The effect of reading one character. -/
def Event.is_getchar : Event → Bool
  | .serial_getchar _ => true
  | _ => false

/-- The effects that belong to the launch: the vector-table-base write and the branch. -/
def Event.is_launch : Event → Bool
  | .write_SCB_VTOR _ => true
  | .branch _ _ _ => true
  | _ => false

/-- The effects a waiting or flashing loop can have. -/
def Event.is_loop_effect : Event → Bool
  | .dfu_getstate _ => true
  | .write_GPIOC_PTOR _ => true
  | .watchdog_refresh => true
  | _ => false

/-- Poll number `j` after state `s`, made while `matched = m + j`, reports data and yields
the banner character at that position. -/
def poll_ok (env : Env) (s : State) (m j : Nat) : Prop :=
  env.rx_available (s.avail_calls + j) = true ∧
  env.rx_char (s.getchar_calls + j) = banner.getD (m + j) 0

instance (env : Env) (s : State) (m j : Nat) : Decidable (poll_ok env s m j) :=
  inferInstanceAs (Decidable (_ ∧ _))

/-- The state of `test_banner_echo` when it enters its receive loop. -/
def banner_sent (env : Env) (s : State) : State :=
  emit .serial_flush (emit (.serial_putchar 10)
    (emit (.serial_write (banner.take (sizeof_banner - 1)))
      (emit (.serial_begin env.baud2div_9600) s)))

/-- The characters of the banner as the source spells them. -/
def banner_chars : List Char := ['F', 'C', '-', 'B', 'o', 'o', 't']

/-- Poll number `i` of `test_banner_echo` started in `s` reports data and reads the `i`-th
banner character. -/
def echo_matches (env : Env) (s : State) (i : Nat) : Prop :=
  env.rx_available (s.avail_calls + i) = true ∧
  env.rx_char (s.getchar_calls + i) = (banner_chars.getD i ' ').toNat

instance (env : Env) (s : State) (i : Nat) : Decidable (echo_matches env s i) :=
  inferInstanceAs (Decidable (_ ∧ _))

/-- The value of `GPIOC_PDOR` after `n` writes of `led_bit` to the toggle register. -/
def toggled : Nat → Nat → Nat
  | 0, x => x
  | n + 1, x => toggled n (x ^^^ led_bit)

/-- The interrupt-enable flag after `n` calls of `watchdog_refresh()`, started from `b`. -/
def irq_after (env : Env) : Nat → Bool → Bool
  | 0, b => b
  | n + 1, b => irq_after env n (env.refresh_irq b)

/-- The interrupt-enable flag after `k` passes of a loop whose body calls
`watchdog_refresh()` `c` times, started from `b`. -/
def irq_after_passes (env : Env) (c : Nat) : Nat → Bool → Bool
  | 0, b => b
  | k + 1, b => irq_after_passes env c k (irq_after env c b)

/-- Effects of one pass of the waiting loop whose poll returned `st`. -/
def wait_pass (st : Nat) : List Event :=
  .dfu_getstate st :: .write_GPIOC_PTOR led_bit :: List.replicate 1000000 .watchdog_refresh

/-- Effects of `k` passes of the waiting loop, the first poll being call number `d0`. -/
def wait_events (env : Env) (d0 : Nat) : Nat → List Event
  | 0 => []
  | k + 1 => wait_pass (env.dfu_state d0) ++ wait_events env (d0 + 1) k

/-- Effects of `n` fast flashes: an LED toggle followed by 100000 watchdog refreshes. -/
def flash_events (n : Nat) : List Event :=
  (List.replicate n
    (Event.write_GPIOC_PTOR led_bit :: List.replicate 100000 Event.watchdog_refresh)).flatten

/-- Effects of `led_init(); dfu_init(); usb_init();`. -/
def init_events (env : Env) : List Event :=
  [.write_PORTC_PCR5 env.pcr_led, .write_GPIOC_PDDR led_bit, .write_GPIOC_PDOR led_bit,
   .dfu_init, .usb_init]

/-- The condition of `main` evaluated `n` times in a row, each on the state the previous
evaluation left. -/
def decide_times : Nat → State → List Bool × State
  | 0, s => ([], s)
  | n + 1, s =>
    match boot_decision s with
    | (b, s1) =>
      match decide_times n s1 with
      | (bs, s2) => (b :: bs, s2)

/-! ## Concrete inputs used to instantiate the theorems -/

/-- A platform whose DFU service reports `dfuMANIFEST` (7) at once, whose serial
receiver echoes nothing and whose watchdog refresh leaves the interrupt mask alone. -/
def env0 : Env where
  appVectorsAddr := 0x4000
  dfuMANIFEST := 7
  baud2div_9600 := 10000
  pcr_led := 0x144
  refresh_irq := fun b => b
  dfu_state := fun _ => 7
  rx_available := fun _ => false
  rx_char := fun _ => 0

/-- A receiver that echoes the banner. -/
def env_echo : Env where
  appVectorsAddr := 0x4000
  dfuMANIFEST := 7
  baud2div_9600 := 10000
  pcr_led := 0x144
  refresh_irq := fun b => b
  dfu_state := fun k => if k < 3 then 2 else 7
  rx_available := fun _ => true
  rx_char := fun k => banner.getD k 0

/-- The machine right after reset, with boot token `t` and application vectors `v`. -/
def reset_state (t : Nat) (v : Fin 128 → Nat) : State where
  boot_token := t
  appVectors := v
  SCB_VTOR := 0
  irq_enabled := true
  PORTC_PCR5 := 0
  GPIOC_PDDR := 0
  GPIOC_PDOR := 0
  USB0_CONTROL := 0
  dfu_calls := 0
  avail_calls := 0
  getchar_calls := 0
  trace := []

/-- A vector table with stack pointer `sp` in slot 0 and entry address `e` elsewhere. -/
def vectors (sp e : Nat) : Fin 128 → Nat :=
  fun i => if i = 0 then sp else e

/-! ## Boot decision: basic facts -/

theorem test_app_missing_eq (s : State) :
    test_app_missing s =
      (decide (s.appVectors 1 < 0x4000) || decide (s.appVectors 1 ≥ 0x40000), s) := rfl

theorem boot_decision_snd (s : State) : (boot_decision s).2 = s := by
  unfold boot_decision c_or
  rw [test_app_missing_eq]
  cases decide (s.appVectors 1 < 0x4000) || decide (s.appVectors 1 ≥ 0x40000) <;> rfl

theorem boot_decision_fst (s : State) :
    (boot_decision s).1 = true ↔
      (s.appVectors 1 < 0x4000 ∨ s.appVectors 1 ≥ 0x40000 ∨ s.boot_token = 0x74624346) := by
  unfold boot_decision c_or
  rw [test_app_missing_eq]
  by_cases h1 : s.appVectors 1 < 0x4000
  · simp [h1]
  · by_cases h2 : s.appVectors 1 ≥ 0x40000
    · simp [h2]
    · simp [h1, h2, test_boot_token]

theorem boot_decision_eq (s : State) : boot_decision s = ((boot_decision s).1, s) := by
  conv_lhs => rw [← Prod.mk.eta (p := boot_decision s), boot_decision_snd]

theorem main_of_launch (env : Env) (fuel spins : Nat) (s : State)
    (h : (boot_decision s).1 = false) : main env fuel spins s = app_launch env s := by
  unfold main
  rw [boot_decision_eq, h]

theorem main_updateMode (env : Env) (fuel spins : Nat) (s : State) :
    (main env fuel spins s).updateMode = (boot_decision s).1 := by
  unfold main
  rw [boot_decision_eq]
  cases (boot_decision s).1
  · rfl
  · dsimp only
    split <;> rfl

/-! ## Application launch: basic facts -/

theorem app_launch_eq (env : Env) (s : State) :
    app_launch env s =
      .launched 0xFFFFFFFF (s.appVectors 0) (s.appVectors 1)
        { s with
          boot_token := 0
          SCB_VTOR := env.appVectorsAddr % 2 ^ 32
          irq_enabled := env.refresh_irq false
          trace := s.trace ++
            [.disable_irq, .write_SCB_VTOR (env.appVectorsAddr % 2 ^ 32), .watchdog_refresh,
             .write_boot_token 0, .branch 0xFFFFFFFF (s.appVectors 0) (s.appVectors 1)] } := by
  simp [app_launch, disable_irq, write_SCB_VTOR, watchdog_refresh, write_boot_token, emit]

/-! ## Claims about the boot decision and the launch -/

/-- Claim C1: with the banner check disabled, `main` takes the update-mode branch exactly
when the entry address in slot 1 is below `0x4000` or at least `0x40000` or the boot token
is `0x74624346`, and otherwise it is `app_launch`; with a valid entry the token alone
decides, with token `0` the entry alone decides, and the four boundary values of the entry
fall on the stated sides. -/
theorem C1_main_update_mode_iff (env : Env) (fuel spins : Nat) (s : State) :
    ((main env fuel spins s).updateMode = true ↔
        (s.appVectors 1 < 0x4000 ∨ s.appVectors 1 ≥ 0x40000 ∨ s.boot_token = 0x74624346)) ∧
    ((main env fuel spins s).updateMode = false →
        main env fuel spins s = app_launch env s) ∧
    (0x4000 ≤ s.appVectors 1 → s.appVectors 1 < 0x40000 →
        ((main env fuel spins s).updateMode = true ↔ s.boot_token = 0x74624346)) ∧
    (s.boot_token = 0 →
        ((main env fuel spins s).updateMode = true ↔
          (s.appVectors 1 < 0x4000 ∨ s.appVectors 1 ≥ 0x40000))) ∧
    (s.boot_token = 0 → s.appVectors 1 = 0x3FFF → (main env fuel spins s).updateMode = true) ∧
    (s.boot_token = 0 → s.appVectors 1 = 0x40000 → (main env fuel spins s).updateMode = true) ∧
    (s.boot_token = 0 → s.appVectors 1 = 0x4000 → main env fuel spins s = app_launch env s) ∧
    (s.boot_token = 0 → s.appVectors 1 = 0x3FFFF → main env fuel spins s = app_launch env s) := by
  have hiff := boot_decision_fst s
  have hm := main_updateMode env fuel spins s
  have hl : (main env fuel spins s).updateMode = false →
      main env fuel spins s = app_launch env s := fun h =>
    main_of_launch env fuel spins s (by rw [← hm]; exact h)
  have hn : ¬ (s.appVectors 1 < 0x4000 ∨ s.appVectors 1 ≥ 0x40000 ∨ s.boot_token = 0x74624346) →
      main env fuel spins s = app_launch env s := fun h => by
    apply hl
    rw [hm]
    cases hb : (boot_decision s).1
    · rfl
    · exact absurd (hiff.mp hb) h
  rw [hm]
  refine ⟨hiff, by rw [← hm]; exact hl, ?_, ?_, ?_, ?_, ?_, ?_⟩
  · intro h1 h2
    rw [hiff]
    constructor
    · rintro (h | h | h)
      · omega
      · omega
      · exact h
    · intro h
      exact Or.inr (Or.inr h)
  · intro h0
    rw [hiff]
    constructor
    · rintro (h | h | h)
      · exact Or.inl h
      · exact Or.inr h
      · rw [h0] at h
        omega
    · rintro (h | h)
      · exact Or.inl h
      · exact Or.inr (Or.inl h)
  · intro _ he
    exact hiff.mpr (Or.inl (by omega))
  · intro _ he
    exact hiff.mpr (Or.inr (Or.inl (by omega)))
  · intro h0 he
    apply hn
    rw [h0, he]
    decide
  · intro h0 he
    apply hn
    rw [h0, he]
    decide

/-- Instance of C1 at the reset state with token `0` and entry `0x3FFF`: update mode. -/
theorem C1_main_update_mode_iff_witness :
    (main env0 1 0 (reset_state 0 (vectors 0x20008000 0x3FFF))).updateMode = true :=
  (C1_main_update_mode_iff env0 1 0 (reset_state 0 (vectors 0x20008000 0x3FFF))).2.2.2.2.1
    rfl rfl

/-- Claim C2: when the table address fits the 32-bit register, the state in which
`app_launch` executes its branch has boot token `0` and `SCB_VTOR` equal to the address of
`appVectors[0]`, whatever the initial token and vector table were. -/
theorem C2_launch_token_and_vtor (env : Env) (s : State) (h : env.appVectorsAddr < 2 ^ 32) :
    (app_launch env s).state.boot_token = 0 ∧
    (app_launch env s).state.SCB_VTOR = env.appVectorsAddr ∧
    (app_launch env s).state.trace.getLast? =
      some (.branch 0xFFFFFFFF (s.appVectors 0) (s.appVectors 1)) := by
  rw [app_launch_eq]
  refine ⟨rfl, Nat.mod_eq_of_lt h, ?_⟩
  simp [Outcome.state]

/-- Instance of C2 on a machine whose token is the DFU sentinel. -/
theorem C2_launch_token_and_vtor_witness :
    env0.appVectorsAddr < 2 ^ 32 ∧
    (app_launch env0 (reset_state 0x74624346 (vectors 0x20008000 0x4001))).state.boot_token = 0 ∧
    (app_launch env0 (reset_state 0x74624346 (vectors 0x20008000 0x4001))).state.SCB_VTOR
      = env0.appVectorsAddr :=
  ⟨by decide,
   (C2_launch_token_and_vtor env0 (reset_state 0x74624346 (vectors 0x20008000 0x4001))
      (by decide)).1,
   (C2_launch_token_and_vtor env0 (reset_state 0x74624346 (vectors 0x20008000 0x4001))
      (by decide)).2.1⟩

/-- Claim C3: `app_launch` ends by transferring control with `sp` equal to slot 0, `lr`
equal to `0xFFFFFFFF` and the branch target equal to slot 1, both slots as they were on
entry; the vector table is unchanged by the launch. -/
theorem C3_launch_registers (env : Env) (s : State) :
    ∃ s1, app_launch env s = .launched 0xFFFFFFFF (s.appVectors 0) (s.appVectors 1) s1 ∧
      s1.appVectors = s.appVectors ∧
      s1.trace.getLast? = some (.branch 0xFFFFFFFF (s.appVectors 0) (s.appVectors 1)) := by
  rw [app_launch_eq]
  exact ⟨_, rfl, rfl, by simp⟩

/-- Claim C5: whenever `main` reaches the branch of `app_launch`, the branch target is
slot 1 of the unchanged vector table, lies in `[0x4000, 0x40000)`, and the token read by
the decision was not `0x74624346`. -/
theorem C5_launch_target_valid (env : Env) (fuel spins : Nat) (s s1 : State) (lr sp pc : Nat)
    (h : main env fuel spins s = .launched lr sp pc s1) :
    pc = s.appVectors 1 ∧ 0x4000 ≤ pc ∧ pc < 0x40000 ∧
    s.boot_token ≠ 0x74624346 ∧ s1.appVectors = s.appVectors := by
  have hb : (boot_decision s).1 = false := by
    rw [← main_updateMode env fuel spins s, h]
    rfl
  have hnot : ¬ (s.appVectors 1 < 0x4000 ∨ s.appVectors 1 ≥ 0x40000 ∨
      s.boot_token = 0x74624346) := by
    rw [← boot_decision_fst, hb]
    simp
  rw [main_of_launch env fuel spins s hb, app_launch_eq] at h
  injection h with _ _ hpc hs
  subst hpc
  subst hs
  refine ⟨rfl, ?_, ?_, ?_, rfl⟩
  · omega
  · omega
  · exact fun ht => hnot (Or.inr (Or.inr ht))

/-- Instance of C5: token `0`, entry `0x9000`. -/
theorem C5_launch_target_valid_witness :
    main env0 1 0 (reset_state 0 (vectors 0x20008000 0x9000)) =
      .launched 0xFFFFFFFF 0x20008000 0x9000
        (app_launch env0 (reset_state 0 (vectors 0x20008000 0x9000))).state ∧
    (0x4000 ≤ 0x9000 ∧ 0x9000 < 0x40000) :=
  ⟨rfl,
   (C5_launch_target_valid env0 1 0 (reset_state 0 (vectors 0x20008000 0x9000))
      (app_launch env0 (reset_state 0 (vectors 0x20008000 0x9000))).state
      0xFFFFFFFF 0x20008000 0x9000 rfl).2.1,
   (C5_launch_target_valid env0 1 0 (reset_state 0 (vectors 0x20008000 0x9000))
      (app_launch env0 (reset_state 0 (vectors 0x20008000 0x9000))).state
      0xFFFFFFFF 0x20008000 0x9000 rfl).2.2.1⟩

/-! ## Banner echo: the receive loop -/

theorem bannerLength_eq : bannerLength = 7 := rfl

theorem echo_loop_exit (env : Env) (m : Nat) (s : State) (h : 7 ≤ m) :
    echo_loop env m s = (m, s) := by
  rw [echo_loop, bannerLength_eq, if_neg (by omega)]

theorem echo_loop_no_data (env : Env) (m : Nat) (s : State) (h : m < 7)
    (ha : env.rx_available s.avail_calls = false) :
    echo_loop env m s =
      (m, emit (.serial_available false) { s with avail_calls := s.avail_calls + 1 }) := by
  rw [echo_loop, bannerLength_eq, if_pos h]
  simp only [serial_available, ha]

theorem echo_loop_mismatch (env : Env) (m : Nat) (s : State) (h : m < 7)
    (ha : env.rx_available s.avail_calls = true)
    (hc : env.rx_char s.getchar_calls ≠ banner.getD m 0) :
    echo_loop env m s =
      (m, emit (.serial_getchar (env.rx_char s.getchar_calls))
            { emit (.serial_available true) { s with avail_calls := s.avail_calls + 1 } with
              getchar_calls := s.getchar_calls + 1 }) := by
  rw [echo_loop, bannerLength_eq, if_pos h]
  simp only [serial_available, ha, serial_getchar, emit, if_neg hc]

theorem echo_loop_match (env : Env) (m : Nat) (s : State) (h : m < 7)
    (ha : env.rx_available s.avail_calls = true)
    (hc : env.rx_char s.getchar_calls = banner.getD m 0) :
    echo_loop env m s =
      echo_loop env (m + 1)
        (emit (.serial_getchar (env.rx_char s.getchar_calls))
            { emit (.serial_available true) { s with avail_calls := s.avail_calls + 1 } with
              getchar_calls := s.getchar_calls + 1 }) := by
  conv_lhs => rw [echo_loop, bannerLength_eq, if_pos h]
  simp only [serial_available, ha, serial_getchar, emit, if_pos hc]

theorem poll_ok_shift (env : Env) (s s2 : State) (m j : Nat)
    (ha : s2.avail_calls = s.avail_calls + 1) (hg : s2.getchar_calls = s.getchar_calls + 1) :
    poll_ok env s2 (m + 1) j ↔ poll_ok env s m (j + 1) := by
  unfold poll_ok
  rw [ha, hg, Nat.add_right_comm s.avail_calls 1 j, Nat.add_right_comm s.getchar_calls 1 j,
    Nat.add_right_comm m 1 j]
  rfl

/-- What the receive loop does when entered with `matched = m` and `m + d = 7`. -/
theorem echo_loop_spec (env : Env) (d : Nat) : ∀ (m : Nat) (s : State), m + d = 7 →
    m ≤ (echo_loop env m s).1 ∧ (echo_loop env m s).1 ≤ 7 ∧
    (∀ j, m + j < (echo_loop env m s).1 → poll_ok env s m j) ∧
    ((echo_loop env m s).1 < 7 → ¬ poll_ok env s m ((echo_loop env m s).1 - m)) ∧
    (echo_loop env m s).2.avail_calls =
      s.avail_calls + ((echo_loop env m s).1 - m) +
        (if (echo_loop env m s).1 < 7 then 1 else 0) ∧
    (echo_loop env m s).2.getchar_calls =
      s.getchar_calls + ((echo_loop env m s).1 - m) +
        (if (echo_loop env m s).1 < 7 ∧
            env.rx_available (s.avail_calls + ((echo_loop env m s).1 - m)) = true
         then 1 else 0) ∧
    ∃ t, (echo_loop env m s).2.trace = s.trace ++ t ∧ (∀ e ∈ t, e.is_poll = true) ∧
      (t.filter Event.is_getchar).length + s.getchar_calls =
        (echo_loop env m s).2.getchar_calls := by
  induction d with
  | zero =>
    intro m s hm
    have h7 : m = 7 := by omega
    subst h7
    rw [echo_loop_exit env 7 s (le_refl 7)]
    refine ⟨le_refl _, le_refl _, ?_, ?_, ?_, ?_, [], ?_, ?_, ?_⟩
    · intro j hj
      exact absurd hj (by simp)
    · intro h
      exact absurd h (by simp)
    · simp
    · simp
    · simp
    · simp
    · simp
  | succ d ih =>
    intro m s hm
    have hlt : m < 7 := by omega
    cases ha : env.rx_available s.avail_calls with
    | false =>
      rw [echo_loop_no_data env m s hlt ha]
      refine ⟨le_refl _, by omega, ?_, ?_, ?_, ?_, [.serial_available false], ?_, ?_, ?_⟩
      · intro j hj
        exact absurd hj (by simp)
      · intro _ hp
        have := hp.1
        simp [ha] at this
      · simp [emit, hlt]
      · simp [emit, hlt, ha]
      · simp [emit]
      · simp [Event.is_poll]
      · simp [emit, Event.is_getchar]
    | true =>
      by_cases hc : env.rx_char s.getchar_calls = banner.getD m 0
      · rw [echo_loop_match env m s hlt ha hc]
        generalize hs2 : (emit (.serial_getchar (env.rx_char s.getchar_calls))
            { emit (.serial_available true) { s with avail_calls := s.avail_calls + 1 } with
              getchar_calls := s.getchar_calls + 1 }) = s2
        have h2a : s2.avail_calls = s.avail_calls + 1 := by rw [← hs2]; rfl
        have h2g : s2.getchar_calls = s.getchar_calls + 1 := by rw [← hs2]; rfl
        have h2t : s2.trace = s.trace ++
            [.serial_available true, .serial_getchar (env.rx_char s.getchar_calls)] := by
          rw [← hs2]
          simp [emit]
        obtain ⟨i1, i2, i3, i4, i5, i6, t, i7, i8, i9⟩ := ih (m + 1) s2 (by omega)
        generalize (echo_loop env (m + 1) s2).1 = r at i1 i2 i3 i4 i5 i6
        have hrm : r - m = (r - (m + 1)) + 1 := by omega
        refine ⟨by omega, i2, ?_, ?_, ?_, ?_,
          [.serial_available true, .serial_getchar (env.rx_char s.getchar_calls)] ++ t,
          ?_, ?_, ?_⟩
        · intro j hj
          cases j with
          | zero => exact ⟨ha, hc⟩
          | succ j =>
            rw [← poll_ok_shift env s s2 m j h2a h2g]
            exact i3 j (by omega)
        · intro h7
          rw [hrm, ← poll_ok_shift env s s2 m _ h2a h2g]
          exact i4 h7
        · rw [i5, h2a]
          omega
        · have hidx : s2.avail_calls + (r - (m + 1)) = s.avail_calls + (r - m) := by omega
          rw [i6, hidx, h2g]
          omega
        · rw [i7, h2t, List.append_assoc]
        · intro e he
          rcases List.mem_append.mp he with h | h
          · simp at h
            rcases h with h | h <;> subst h <;> rfl
          · exact i8 e h
        · rw [← i9, h2g]
          simp [Event.is_getchar, List.filter_cons]
          omega
      · rw [echo_loop_mismatch env m s hlt ha hc]
        refine ⟨le_refl _, by omega, ?_, ?_, ?_, ?_,
          [.serial_available true, .serial_getchar (env.rx_char s.getchar_calls)], ?_, ?_, ?_⟩
        · intro j hj
          exact absurd hj (by simp)
        · intro _ hp
          rw [Nat.sub_self] at hp
          exact hc hp.2
        · simp [emit, hlt]
        · simp [emit, hlt, ha]
        · simp [emit]
        · simp [Event.is_poll]
        · simp [emit, Event.is_getchar, Nat.add_comm]

/-! ## Banner echo: the whole test -/

theorem test_banner_echo_eq (env : Env) (s : State) :
    test_banner_echo env s =
      ((echo_loop env 0 (banner_sent env s)).1 == bannerLength,
        emit .serial_end (echo_loop env 0 (banner_sent env s)).2) := rfl

theorem banner_getD_chars (i : Nat) (h : i < 7) :
    banner.getD i 0 = (banner_chars.getD i ' ').toNat := by
  interval_cases i <;> rfl

theorem poll_ok_iff_echo_matches (env : Env) (s : State) (i : Nat) (h : i < 7) :
    poll_ok env (banner_sent env s) 0 i ↔ echo_matches env s i := by
  unfold poll_ok echo_matches
  rw [Nat.zero_add, banner_getD_chars i h]
  rfl

/-- Claim C8: `test_banner_echo` returns true exactly when each of its first 7 polls
reports data and reads the banner characters `F C - B o o t` in order; if poll `k` is the
first that reports no data or reads another character, it returns false and polls no
further. -/
theorem C8_banner_echo_iff (env : Env) (s : State) :
    ((test_banner_echo env s).1 = true ↔ ∀ i, i < 7 → echo_matches env s i) ∧
    (∀ k, k < 7 → (∀ i, i < k → echo_matches env s i) → ¬ echo_matches env s k →
      (test_banner_echo env s).1 = false ∧
      (test_banner_echo env s).2.avail_calls = s.avail_calls + k + 1 ∧
      (test_banner_echo env s).2.getchar_calls =
        s.getchar_calls + k + (if env.rx_available (s.avail_calls + k) = true then 1 else 0)) := by
  obtain ⟨_, i2, i3, i4, i5, i6, _⟩ := echo_loop_spec env 7 0 (banner_sent env s) rfl
  rw [test_banner_echo_eq, bannerLength_eq]
  generalize (echo_loop env 0 (banner_sent env s)).1 = r at i2 i3 i4 i5 i6
  have ha0 : (banner_sent env s).avail_calls = s.avail_calls := rfl
  have hg0 : (banner_sent env s).getchar_calls = s.getchar_calls := rfl
  rw [ha0] at i5 i6
  rw [hg0] at i6
  rw [Nat.sub_zero] at i4 i5 i6
  constructor
  · rw [beq_iff_eq]
    constructor
    · intro hr i hi
      exact (poll_ok_iff_echo_matches env s i hi).mp (i3 i (by omega))
    · intro hall
      by_contra hne
      have hlt : r < 7 := by omega
      exact i4 hlt ((poll_ok_iff_echo_matches env s r hlt).mpr (hall r hlt))
  · intro k hk hbefore hfail
    have hrk : r = k := by
      rcases Nat.lt_trichotomy r k with h | h | h
      · exact absurd ((poll_ok_iff_echo_matches env s r (by omega)).mpr (hbefore r h))
          (i4 (by omega))
      · exact h
      · exact absurd ((poll_ok_iff_echo_matches env s k hk).mp (i3 k (by omega))) hfail
    subst hrk
    refine ⟨?_, ?_, ?_⟩
    · simp
      omega
    · show (echo_loop env 0 (banner_sent env s)).2.avail_calls = _
      rw [i5, if_pos hk]
    · show (echo_loop env 0 (banner_sent env s)).2.getchar_calls = _
      rw [i6]
      simp [hk]

/-- Instances of C8: an echoing receiver gives true, a silent one gives false after one
poll. -/
theorem C8_banner_echo_iff_witness :
    (test_banner_echo env_echo (reset_state 0 (vectors 0 0))).1 = true ∧
    ((test_banner_echo env0 (reset_state 0 (vectors 0 0))).1 = false ∧
      (test_banner_echo env0 (reset_state 0 (vectors 0 0))).2.avail_calls = 0 + 0 + 1 ∧
      (test_banner_echo env0 (reset_state 0 (vectors 0 0))).2.getchar_calls =
        0 + 0 + (if env0.rx_available (0 + 0) = true then 1 else 0)) :=
  ⟨(C8_banner_echo_iff env_echo (reset_state 0 (vectors 0 0))).1.mpr
      (fun i hi => ⟨rfl, by
        show banner.getD (0 + i) 0 = _
        rw [Nat.zero_add]
        exact banner_getD_chars i hi⟩),
   (C8_banner_echo_iff env0 (reset_state 0 (vectors 0 0))).2 0 (by decide)
      (fun i hi => absurd hi (Nat.not_lt_zero i))
      (fun h => Bool.noConfusion h.1)⟩

/-- Claim C9: `test_banner_echo` always returns; its serial operations are `serial_begin`,
the write of the 7 banner bytes, the newline, the flush, then only polls of the receiver
with at most 7 characters read, then `serial_end` as the last operation and only once,
whether or not the echo matched. -/
theorem C9_banner_echo_releases (env : Env) (s : State) :
    ∃ t, (test_banner_echo env s).2.trace =
        s.trace ++ [.serial_begin env.baud2div_9600, .serial_write [70, 67, 45, 66, 111, 111, 116],
          .serial_putchar 10, .serial_flush] ++ t ++ [.serial_end] ∧
      (∀ e ∈ t, e.is_poll = true) ∧
      List.count .serial_end t = 0 ∧
      (t.filter Event.is_getchar).length ≤ 7 ∧
      (test_banner_echo env s).2.getchar_calls ≤ s.getchar_calls + 7 ∧
      (test_banner_echo env s).2.avail_calls ≤ s.avail_calls + 7 := by
  obtain ⟨_, i2, _, _, i5, i6, t, i7, i8, i9⟩ := echo_loop_spec env 7 0 (banner_sent env s) rfl
  have ha0 : (banner_sent env s).avail_calls = s.avail_calls := rfl
  have hg0 : (banner_sent env s).getchar_calls = s.getchar_calls := rfl
  have ht0 : (banner_sent env s).trace =
      s.trace ++ [.serial_begin env.baud2div_9600, .serial_write [70, 67, 45, 66, 111, 111, 116],
          .serial_putchar 10, .serial_flush] := by
    simp [banner_sent, emit, banner, sizeof_banner]
  rw [ha0] at i5 i6
  rw [hg0] at i6 i9
  rw [ht0] at i7
  have hg : (echo_loop env 0 (banner_sent env s)).2.getchar_calls ≤ s.getchar_calls + 7 := by
    rw [i6]
    split <;> omega
  have hav : (echo_loop env 0 (banner_sent env s)).2.avail_calls ≤ s.avail_calls + 7 := by
    rw [i5]
    split <;> omega
  refine ⟨t, ?_, i8, ?_, ?_, hg, hav⟩
  · rw [test_banner_echo_eq]
    show (echo_loop env 0 (banner_sent env s)).2.trace ++ [Event.serial_end] = _
    rw [i7]
  · rw [List.count_eq_zero]
    intro hmem
    have := i8 _ hmem
    simp [Event.is_poll] at this
  · omega

/-! ## Update mode: the loops -/

theorem for_down_zero (body : State → State) (s : State) : for_down body 0 s = s := rfl

theorem for_down_succ (body : State → State) (x : Nat) (s : State) :
    for_down body (x + 1) s = for_down body x (body s) := rfl

theorem irq_after_succ (env : Env) (n : Nat) (b : Bool) :
    irq_after env (n + 1) b = irq_after env n (env.refresh_irq b) := rfl

theorem irq_after_passes_zero (env : Env) (c : Nat) (b : Bool) :
    irq_after_passes env c 0 b = b := rfl

theorem irq_after_passes_succ (env : Env) (c k : Nat) (b : Bool) :
    irq_after_passes env c (k + 1) b = irq_after_passes env c k (irq_after env c b) := rfl

theorem refresh_loop_eq (env : Env) (n : Nat) : ∀ s : State,
    refresh_loop env n s =
      { s with
        irq_enabled := irq_after env n s.irq_enabled
        trace := s.trace ++ List.replicate n .watchdog_refresh } := by
  unfold refresh_loop
  induction n with
  | zero =>
    intro s
    simp [for_down_zero, irq_after]
  | succ n ih =>
    intro s
    rw [for_down_succ, ih, List.replicate_succ, irq_after_succ]
    simp [watchdog_refresh, emit]

theorem wait_body_eq (env : Env) (s : State) :
    wait_body env s =
      { s with
        irq_enabled := irq_after env 1000000 s.irq_enabled
        GPIOC_PDOR := s.GPIOC_PDOR ^^^ led_bit
        trace := s.trace ++
          (.write_GPIOC_PTOR led_bit :: List.replicate 1000000 .watchdog_refresh) } := by
  unfold wait_body
  rw [refresh_loop_eq]
  generalize List.replicate 1000000 Event.watchdog_refresh = rs
  generalize irq_after env 1000000 = fi
  simp only [led_toggle, emit, List.append_assoc, List.singleton_append]

theorem flash_body_eq (env : Env) (s : State) :
    flash_body env s =
      { s with
        irq_enabled := irq_after env 100000 s.irq_enabled
        GPIOC_PDOR := s.GPIOC_PDOR ^^^ led_bit
        trace := s.trace ++
          (.write_GPIOC_PTOR led_bit :: List.replicate 100000 .watchdog_refresh) } := by
  unfold flash_body
  rw [refresh_loop_eq]
  generalize List.replicate 100000 Event.watchdog_refresh = rs
  generalize irq_after env 100000 = fi
  simp only [led_toggle, emit, List.append_assoc, List.singleton_append]

theorem flash_events_zero : flash_events 0 = [] := rfl

theorem flash_events_succ (n : Nat) :
    flash_events (n + 1) =
      (Event.write_GPIOC_PTOR led_bit :: List.replicate 100000 Event.watchdog_refresh) ++
        flash_events n := rfl

theorem flash_loop_eq (env : Env) (n : Nat) : ∀ s : State,
    flash_loop env n s =
      { s with
        irq_enabled := irq_after_passes env 100000 n s.irq_enabled
        GPIOC_PDOR := toggled n s.GPIOC_PDOR
        trace := s.trace ++ flash_events n } := by
  unfold flash_loop
  induction n with
  | zero =>
    intro s
    rw [for_down_zero, flash_events_zero, toggled, irq_after_passes_zero, List.append_nil]
  | succ n ih =>
    intro s
    rw [for_down_succ, ih, flash_body_eq, flash_events_succ, toggled, irq_after_passes_succ]
    generalize List.replicate 100000 Event.watchdog_refresh = rs
    generalize irq_after env 100000 = fi
    generalize irq_after_passes env 100000 = fp
    simp only [List.append_assoc, List.cons_append]

theorem spin_eq (n : Nat) (s : State) : spin n s = s := by
  induction n with
  | zero => rfl
  | succ n ih => rw [spin, ih]

theorem while_fuel_zero (cond : State → Bool × State) (body : State → State) (s : State) :
    while_fuel cond body 0 s = (false, s) := rfl

theorem while_fuel_continue (cond : State → Bool × State) (body : State → State)
    (fuel : Nat) (s s1 : State) (h : cond s = (true, s1)) :
    while_fuel cond body (fuel + 1) s = while_fuel cond body fuel (body s1) := by
  rw [while_fuel, h]

theorem while_fuel_leave (cond : State → Bool × State) (body : State → State)
    (fuel : Nat) (s s1 : State) (h : cond s = (false, s1)) :
    while_fuel cond body (fuel + 1) s = (true, s1) := by
  rw [while_fuel, h]

theorem wait_cond_eq (env : Env) (s : State) :
    wait_cond env s =
      (env.dfu_state s.dfu_calls != env.dfuMANIFEST,
        { s with
          dfu_calls := s.dfu_calls + 1
          trace := s.trace ++ [.dfu_getstate (env.dfu_state s.dfu_calls)] }) := rfl

theorem wait_events_succ (env : Env) (d0 k : Nat) :
    wait_events env d0 (k + 1) =
      .dfu_getstate (env.dfu_state d0) :: .write_GPIOC_PTOR led_bit ::
        (List.replicate 1000000 .watchdog_refresh ++ wait_events env (d0 + 1) k) := by
  rw [wait_events, wait_pass]
  generalize List.replicate 1000000 Event.watchdog_refresh = rs
  simp only [List.cons_append]

theorem wait_loop_running (env : Env) (fuel : Nat) : ∀ s : State,
    (∀ i, i < fuel → env.dfu_state (s.dfu_calls + i) ≠ env.dfuMANIFEST) →
    wait_loop env fuel s =
      (false, { s with
        irq_enabled := irq_after_passes env 1000000 fuel s.irq_enabled
        dfu_calls := s.dfu_calls + fuel
        GPIOC_PDOR := toggled fuel s.GPIOC_PDOR
        trace := s.trace ++ wait_events env s.dfu_calls fuel }) := by
  unfold wait_loop
  induction fuel with
  | zero =>
    intro s _
    rw [while_fuel_zero, irq_after_passes_zero]
    simp [wait_events, toggled]
  | succ fuel ih =>
    intro s h
    have h0 : env.dfu_state s.dfu_calls ≠ env.dfuMANIFEST := h 0 (Nat.succ_pos _)
    have hc : wait_cond env s = (true, { s with
          dfu_calls := s.dfu_calls + 1
          trace := s.trace ++ [.dfu_getstate (env.dfu_state s.dfu_calls)] }) := by
      rw [wait_cond_eq, bne_iff_ne.mpr h0]
    rw [while_fuel_continue _ _ _ _ _ hc, wait_body_eq, ih, wait_events_succ,
      irq_after_passes_succ]
    · generalize List.replicate 1000000 Event.watchdog_refresh = rs
      generalize irq_after env 1000000 = fi
      generalize irq_after_passes env 1000000 = fp
      simp only [toggled, List.append_assoc, List.singleton_append, List.cons_append,
        List.nil_append, Nat.add_assoc, Nat.add_comm 1 fuel]
    · intro i hi
      have := h (i + 1) (by omega)
      simpa only [Nat.add_assoc, Nat.add_comm 1 i] using this

theorem wait_loop_exit (env : Env) (k : Nat) : ∀ (fuel : Nat) (s : State),
    (∀ i, i < k → env.dfu_state (s.dfu_calls + i) ≠ env.dfuMANIFEST) →
    env.dfu_state (s.dfu_calls + k) = env.dfuMANIFEST → k < fuel →
    wait_loop env fuel s =
      (true, { s with
        irq_enabled := irq_after_passes env 1000000 k s.irq_enabled
        dfu_calls := s.dfu_calls + k + 1
        GPIOC_PDOR := toggled k s.GPIOC_PDOR
        trace := s.trace ++ wait_events env s.dfu_calls k ++
          [.dfu_getstate env.dfuMANIFEST] }) := by
  unfold wait_loop
  induction k with
  | zero =>
    intro fuel s _ hm hf
    obtain ⟨f, rfl⟩ : ∃ f, fuel = f + 1 := ⟨fuel - 1, by omega⟩
    rw [Nat.add_zero] at hm
    have hc : wait_cond env s = (false, { s with
          dfu_calls := s.dfu_calls + 1
          trace := s.trace ++ [.dfu_getstate (env.dfu_state s.dfu_calls)] }) := by
      rw [wait_cond_eq, hm]
      simp
    rw [while_fuel_leave _ _ _ _ _ hc, hm, irq_after_passes_zero]
    simp [wait_events, toggled]
  | succ k ih =>
    intro fuel s h hm hf
    obtain ⟨f, rfl⟩ : ∃ f, fuel = f + 1 := ⟨fuel - 1, by omega⟩
    have h0 : env.dfu_state s.dfu_calls ≠ env.dfuMANIFEST := h 0 (Nat.succ_pos _)
    have hc : wait_cond env s = (true, { s with
          dfu_calls := s.dfu_calls + 1
          trace := s.trace ++ [.dfu_getstate (env.dfu_state s.dfu_calls)] }) := by
      rw [wait_cond_eq, bne_iff_ne.mpr h0]
    rw [while_fuel_continue _ _ _ _ _ hc, wait_body_eq, ih f _ _ _ (by omega), wait_events_succ,
      irq_after_passes_succ]
    · generalize List.replicate 1000000 Event.watchdog_refresh = rs
      generalize irq_after env 1000000 = fi
      generalize irq_after_passes env 1000000 = fp
      simp only [toggled, List.append_assoc, List.singleton_append, List.cons_append,
        List.nil_append, Nat.add_assoc, Nat.add_comm 1 k]
    · intro i hi
      have := h (i + 1) (by omega)
      simpa only [Nat.add_assoc, Nat.add_comm 1 i] using this
    · simpa only [Nat.add_assoc, Nat.add_comm 1 k] using hm

/-! ## Update mode: `main` -/

theorem init_eq (env : Env) (s : State) :
    usb_init (dfu_init (led_init env s)) =
      { s with
        PORTC_PCR5 := env.pcr_led
        GPIOC_PDDR := led_bit
        GPIOC_PDOR := led_bit
        trace := s.trace ++ init_events env } := by
  simp [usb_init, dfu_init, led_init, emit, init_events]

/-- The update branch of `main` while `dfuMANIFEST` has not been reported. -/
theorem main_waiting (env : Env) (fuel spins : Nat) (s : State)
    (hdec : (boot_decision s).1 = true)
    (h : ∀ i, i < fuel → env.dfu_state (s.dfu_calls + i) ≠ env.dfuMANIFEST) :
    main env fuel spins s =
      .waiting { s with
        irq_enabled := irq_after_passes env 1000000 fuel s.irq_enabled
        PORTC_PCR5 := env.pcr_led
        GPIOC_PDDR := led_bit
        GPIOC_PDOR := toggled fuel led_bit
        dfu_calls := s.dfu_calls + fuel
        trace := s.trace ++ init_events env ++ wait_events env s.dfu_calls fuel } := by
  unfold main
  rw [boot_decision_eq, hdec]
  simp only []
  have hw := wait_loop_running env fuel
    { s with
      PORTC_PCR5 := env.pcr_led
      GPIOC_PDDR := led_bit
      GPIOC_PDOR := led_bit
      trace := s.trace ++ init_events env } h
  rw [init_eq, hw]

/-- The update branch of `main` once poll number `k` has reported `dfuMANIFEST`. -/
theorem main_spinning (env : Env) (k fuel spins : Nat) (s : State)
    (hdec : (boot_decision s).1 = true)
    (hbefore : ∀ i, i < k → env.dfu_state (s.dfu_calls + i) ≠ env.dfuMANIFEST)
    (hman : env.dfu_state (s.dfu_calls + k) = env.dfuMANIFEST) (hk : k < fuel) :
    main env fuel spins s =
      .spinning { s with
        boot_token := 0
        irq_enabled := false
        USB0_CONTROL := 0
        PORTC_PCR5 := env.pcr_led
        GPIOC_PDDR := led_bit
        GPIOC_PDOR := toggled 30 (toggled k led_bit)
        dfu_calls := s.dfu_calls + k + 1
        trace := s.trace ++ init_events env ++ wait_events env s.dfu_calls k ++
          [.dfu_getstate env.dfuMANIFEST] ++ [.write_boot_token 0] ++ flash_events 30 ++
          [.watchdog_refresh, .disable_irq, .write_USB0_CONTROL 0] } := by
  unfold main
  rw [boot_decision_eq, hdec]
  simp only []
  have hw := wait_loop_exit env k fuel
    { s with
      PORTC_PCR5 := env.pcr_led
      GPIOC_PDDR := led_bit
      GPIOC_PDOR := led_bit
      trace := s.trace ++ init_events env } hbefore hman hk
  rw [init_eq, hw]
  simp only []
  rw [spin_eq, flash_loop_eq]
  generalize flash_events 30 = fl
  generalize irq_after_passes env 100000 = fp
  generalize irq_after_passes env 1000000 = fq
  simp only [write_USB0_CONTROL, disable_irq, watchdog_refresh, write_boot_token, emit,
    List.append_assoc, List.singleton_append, List.cons_append, List.nil_append]

theorem loop_effect_not_launch (e : Event) (h : e.is_loop_effect = true) :
    e.is_launch = false ∧ ∀ v, e ≠ .write_boot_token v := by
  cases e <;> simp [Event.is_loop_effect, Event.is_launch] at h ⊢

theorem wait_events_loop_effect (env : Env) (k : Nat) :
    ∀ d0 e, e ∈ wait_events env d0 k → e.is_loop_effect = true := by
  induction k with
  | zero =>
    intro d0 e he
    simp [wait_events] at he
  | succ k ih =>
    intro d0 e he
    rw [wait_events_succ, List.mem_cons, List.mem_cons, List.mem_append] at he
    rcases he with h | h | h | h
    · subst h
      rfl
    · subst h
      rfl
    · rw [List.eq_of_mem_replicate h]
      rfl
    · exact ih _ e h

theorem flash_events_loop_effect (n : Nat) :
    ∀ e, e ∈ flash_events n → e.is_loop_effect = true := by
  induction n with
  | zero =>
    intro e he
    rw [flash_events_zero] at he
    exact absurd he (List.not_mem_nil e)
  | succ n ih =>
    intro e he
    rw [flash_events_succ, List.cons_append, List.mem_cons, List.mem_append] at he
    rcases he with h | h | h
    · subst h
      rfl
    · rw [List.eq_of_mem_replicate h]
      rfl
    · exact ih e h

theorem init_events_not_launch (env : Env) (e : Event) (h : e ∈ init_events env) :
    e.is_launch = false ∧ ∀ v, e ≠ .write_boot_token v := by
  simp only [init_events, List.mem_cons, List.mem_singleton, List.not_mem_nil, or_false] at h
  rcases h with h | h | h | h | h <;> subst h <;> simp [Event.is_launch]

theorem decide_times_eq (n : Nat) (s : State) :
    decide_times n s = (List.replicate n (boot_decision s).1, s) := by
  induction n with
  | zero => rfl
  | succ n ih =>
    rw [decide_times, boot_decision_eq]
    simp only []
    rw [ih, List.replicate_succ]

/-! ## Claims about update mode -/

/-- Claim C6: when the boot decision is update mode then, whatever `dfu_getstate` returns
and however long the execution is observed, `main` never reaches the launch: no `SCB_VTOR`
write and no branch occur; and either the execution is in the waiting loop at every
observation, or from some point on it is in the final spin. -/
theorem C6_update_never_launches (env : Env) (s : State)
    (hdec : (boot_decision s).1 = true) :
    (∀ fuel spins,
      (main env fuel spins s).updateMode = true ∧
      (main env fuel spins s).state.SCB_VTOR = s.SCB_VTOR ∧
      ∃ t, (main env fuel spins s).state.trace = s.trace ++ t ∧
        ∀ e ∈ t, e.is_launch = false) ∧
    ((∀ fuel spins, ∃ s1, main env fuel spins s = .waiting s1) ∨
     (∃ N s1, ∀ fuel spins, N ≤ fuel → main env fuel spins s = .spinning s1)) := by
  have hwait : ∀ fuel spins,
      (∀ i, i < fuel → env.dfu_state (s.dfu_calls + i) ≠ env.dfuMANIFEST) →
      (main env fuel spins s).updateMode = true ∧
      (main env fuel spins s).state.SCB_VTOR = s.SCB_VTOR ∧
      ∃ t, (main env fuel spins s).state.trace = s.trace ++ t ∧
        ∀ e ∈ t, e.is_launch = false := by
    intro fuel spins h
    rw [main_waiting env fuel spins s hdec h]
    refine ⟨rfl, rfl, init_events env ++ wait_events env s.dfu_calls fuel, ?_, ?_⟩
    · simp only [Outcome.state, List.append_assoc]
    · intro e he
      rcases List.mem_append.mp he with h1 | h1
      · exact (init_events_not_launch env e h1).1
      · exact (loop_effect_not_launch e (wait_events_loop_effect env fuel _ e h1)).1
  by_cases hex : ∃ k, env.dfu_state (s.dfu_calls + k) = env.dfuMANIFEST
  · have hman := Nat.find_spec hex
    have hbefore : ∀ i, i < Nat.find hex →
        env.dfu_state (s.dfu_calls + i) ≠ env.dfuMANIFEST := fun i hi => Nat.find_min hex hi
    constructor
    · intro fuel spins
      by_cases hf : Nat.find hex < fuel
      · rw [main_spinning env (Nat.find hex) fuel spins s hdec hbefore hman hf]
        refine ⟨rfl, rfl, init_events env ++ wait_events env s.dfu_calls (Nat.find hex) ++
          [.dfu_getstate env.dfuMANIFEST] ++ [.write_boot_token 0] ++ flash_events 30 ++
          [.watchdog_refresh, .disable_irq, .write_USB0_CONTROL 0], ?_, ?_⟩
        · simp only [Outcome.state, List.append_assoc]
        · intro e he
          simp only [List.mem_append, List.mem_cons, List.mem_singleton, List.not_mem_nil,
            or_false] at he
          rcases he with ((((h1 | h1) | h1) | h1) | h1) | h1
          · exact (init_events_not_launch env e h1).1
          · exact (loop_effect_not_launch e (wait_events_loop_effect env _ _ e h1)).1
          · subst h1
            rfl
          · subst h1
            rfl
          · exact (loop_effect_not_launch e (flash_events_loop_effect 30 e h1)).1
          · rcases h1 with h1 | h1 | h1 <;> subst h1 <;> rfl
      · exact hwait fuel spins (fun i hi => hbefore i (by omega))
    · right
      refine ⟨Nat.find hex + 1, _, fun fuel spins hf =>
        main_spinning env (Nat.find hex) fuel spins s hdec hbefore hman (by omega)⟩
  · have hnever : ∀ i, env.dfu_state (s.dfu_calls + i) ≠ env.dfuMANIFEST :=
      fun i hi => hex ⟨i, hi⟩
    constructor
    · intro fuel spins
      exact hwait fuel spins (fun i _ => hnever i)
    · left
      intro fuel spins
      exact ⟨_, main_waiting env fuel spins s hdec (fun i _ => hnever i)⟩

/-- Instance of C6: the boot token holds the DFU sentinel although the application is
valid. -/
theorem C6_update_never_launches_witness :
    (boot_decision (reset_state 0x74624346 (vectors 0x20008000 0x8000))).1 = true ∧
    ∀ fuel spins,
      (main env_echo fuel spins
        (reset_state 0x74624346 (vectors 0x20008000 0x8000))).updateMode = true ∧
      (main env_echo fuel spins
        (reset_state 0x74624346 (vectors 0x20008000 0x8000))).state.SCB_VTOR =
          (reset_state 0x74624346 (vectors 0x20008000 0x8000)).SCB_VTOR ∧
      ∃ t, (main env_echo fuel spins
          (reset_state 0x74624346 (vectors 0x20008000 0x8000))).state.trace =
            (reset_state 0x74624346 (vectors 0x20008000 0x8000)).trace ++ t ∧
        ∀ e ∈ t, e.is_launch = false :=
  ⟨rfl, (C6_update_never_launches env_echo
    (reset_state 0x74624346 (vectors 0x20008000 0x8000)) rfl).1⟩

/-- Claim C7: in update mode, let poll number `k` be the first on which `dfu_getstate()`
returns `dfuMANIFEST`.  Observed before that poll, `main` is in the waiting loop with the
boot token unwritten.  Observed after it, `main` is in the final spin, in a state that no
longer changes, and its effects from that poll on are: boot token written `0`, then 30
times an LED toggle followed by 100000 watchdog refreshes, then one watchdog refresh,
interrupts disabled, `USB0_CONTROL` written `0`, and nothing more. -/
theorem C7_manifest_sequence (env : Env) (s : State) (k : Nat)
    (hdec : (boot_decision s).1 = true)
    (hbefore : ∀ i, i < k → env.dfu_state (s.dfu_calls + i) ≠ env.dfuMANIFEST)
    (hman : env.dfu_state (s.dfu_calls + k) = env.dfuMANIFEST) :
    (∀ fuel spins, fuel ≤ k →
      ∃ s1, main env fuel spins s = .waiting s1 ∧ s1.boot_token = s.boot_token ∧
        s1.trace = s.trace ++ init_events env ++ wait_events env s.dfu_calls fuel) ∧
    (∃ s1, (∀ fuel spins, k < fuel → main env fuel spins s = .spinning s1) ∧
      s1.boot_token = 0 ∧ s1.irq_enabled = false ∧ s1.USB0_CONTROL = 0 ∧
      s1.trace = s.trace ++ init_events env ++ wait_events env s.dfu_calls k ++
        [.dfu_getstate env.dfuMANIFEST] ++ [.write_boot_token 0] ++
        (List.replicate 30
          (Event.write_GPIOC_PTOR led_bit ::
            List.replicate 100000 Event.watchdog_refresh)).flatten ++
        [.watchdog_refresh, .disable_irq, .write_USB0_CONTROL 0]) ∧
    (∀ n e, e ∈ init_events env ++ wait_events env s.dfu_calls n ++
        [.dfu_getstate env.dfuMANIFEST] → ∀ v, e ≠ .write_boot_token v) := by
  refine ⟨?_, ?_, ?_⟩
  · intro fuel spins hf
    exact ⟨_, main_waiting env fuel spins s hdec (fun i hi => hbefore i (by omega)), rfl, rfl⟩
  · exact ⟨_, fun fuel spins hf => main_spinning env k fuel spins s hdec hbefore hman hf,
      rfl, rfl, rfl, rfl⟩
  · intro n e he
    simp only [List.mem_append, List.mem_singleton] at he
    rcases he with (h1 | h1) | h1
    · exact (init_events_not_launch env e h1).2
    · exact (loop_effect_not_launch e (wait_events_loop_effect env n _ e h1)).2
    · subst h1
      intro v hv
      cases hv

/-- Instance of C7: the token holds the DFU sentinel and the first poll already reports
`dfuMANIFEST`. -/
theorem C7_manifest_sequence_witness :
    (boot_decision (reset_state 0x74624346 (vectors 0x20008000 0x8000))).1 = true ∧
    env0.dfu_state ((reset_state 0x74624346 (vectors 0x20008000 0x8000)).dfu_calls + 0)
      = env0.dfuMANIFEST ∧
    ∃ s1, (∀ fuel spins, 0 < fuel →
        main env0 fuel spins (reset_state 0x74624346 (vectors 0x20008000 0x8000)) =
          .spinning s1) ∧
      s1.boot_token = 0 ∧ s1.irq_enabled = false ∧ s1.USB0_CONTROL = 0 ∧
      s1.trace = (reset_state 0x74624346 (vectors 0x20008000 0x8000)).trace ++
        init_events env0 ++
        wait_events env0 (reset_state 0x74624346 (vectors 0x20008000 0x8000)).dfu_calls 0 ++
        [.dfu_getstate env0.dfuMANIFEST] ++ [.write_boot_token 0] ++
        (List.replicate 30
          (Event.write_GPIOC_PTOR led_bit ::
            List.replicate 100000 Event.watchdog_refresh)).flatten ++
        [.watchdog_refresh, .disable_irq, .write_USB0_CONTROL 0] :=
  ⟨rfl, rfl,
   (C7_manifest_sequence env0 (reset_state 0x74624346 (vectors 0x20008000 0x8000)) 0 rfl
      (fun i hi => absurd hi (Nat.not_lt_zero i)) rfl).2.1⟩

/-! ## Purity of the decision -/

/-- Claim C10: the decision `test_app_missing() || test_boot_token()` of `main` leaves the
whole machine state as it found it (boot token, vector table, trace of effects and hence
the serial port included); evaluated `n` times in a row it gives the same answer `n`
times; and its answer depends only on the boot token and slot 1 of the vector table. -/
theorem C10_decision_pure (s : State) (n : Nat) :
    (boot_decision s).2 = s ∧
    (boot_decision s).2.boot_token = s.boot_token ∧
    (boot_decision s).2.appVectors = s.appVectors ∧
    (boot_decision s).2.trace = s.trace ∧
    decide_times n s = (List.replicate n (boot_decision s).1, s) ∧
    (∀ s2 : State, s2.boot_token = s.boot_token → s2.appVectors 1 = s.appVectors 1 →
      (boot_decision s2).1 = (boot_decision s).1) := by
  have h := boot_decision_snd s
  refine ⟨h, by rw [h], by rw [h], by rw [h], decide_times_eq n s, ?_⟩
  intro s2 ht he
  rw [Bool.eq_iff_iff, boot_decision_fst, boot_decision_fst, ht, he]

/-- Instance of C10: two different machine states with the same token and entry address
get the same decision. -/
theorem C10_decision_pure_witness :
    (boot_decision (app_launch env0 (reset_state 0 (vectors 0x20008000 0x1000))).state).1 =
      (boot_decision (reset_state 0 (vectors 0x20008000 0x1000))).1 :=
  (C10_decision_pure (reset_state 0 (vectors 0x20008000 0x1000)) 3).2.2.2.2.2
    (app_launch env0 (reset_state 0 (vectors 0x20008000 0x1000))).state rfl rfl

/-- With the banner test switched on, a matching echo alone selects update mode. -/
theorem boot_decision_banner_of_echo (env : Env) (s : State)
    (h : (test_banner_echo env s).1 = true) : (boot_decision_banner env s).1 = true := by
  unfold boot_decision_banner c_or
  rw [← Prod.mk.eta (p := test_banner_echo env s), h]

end Bootloader
